import Mathlib

/-!
Verification development for the travel-planner application
(`travel_bot.py`).  The relevant parts of the program are embedded
shallowly:

* `JVal` models parsed JSON values (`json.loads` results); Python dict
  objects become association lists of key/value pairs.
* Calendar dates are modelled by `Date` together with the standard
  civil-calendar day-number conversion, mirroring the behaviour of the
  `datetime` / `timedelta` library used by the program.
* The external model service is modelled by a producer oracle: each
  invocation either yields a parsed JSON value (`Except.ok`) or fails
  (`Except.error`), covering both a raised exception and a response body
  that fails to parse as JSON.
* The process-wide memoization cache `EnhancedTravelPlannerAI._cache`
  becomes explicit state (`PlannerState`) threaded through the cached
  operations, together with a count of producer invocations.
-/

set_option maxRecDepth 10000

namespace TravelBot

/-- Parsed JSON values, as returned by json.loads in the program. -/
inductive JVal where
  | str : String → JVal
  | num : Int → JVal
  | obj : List (String × JVal) → JVal
  | arr : List JVal → JVal
  deriving Repr

/-- A Python dict with string keys, as used for the day-entry objects
of the generated itinerary. -/
abbrev Obj := List (String × JVal)

/-- Dict lookup: first binding of the key, if any. -/
def getKey : Obj → String → Option JVal
  | [], _ => none
  | (k, v) :: rest, key => if k = key then some v else getKey rest key

/-- Dict assignment `d[key] = v`: replaces the first binding of the key
in place, or appends a new binding when the key is absent. -/
def setKey : Obj → String → JVal → Obj
  | [], key, v => [(key, v)]
  | (k, w) :: rest, key, v =>
      if k = key then (key, v) :: rest else (k, w) :: setKey rest key v

/-! ## Calendar dates

The program manipulates dates through Python datetime:
`datetime.fromisoformat(start_date) + timedelta(days=i)`,
`.strftime("%Y-%m-%d")` and `.strftime("%A")`.  We model a calendar
date by its year/month/day fields and convert to and from a linear day
number (days since 1970-01-01) with the standard proleptic-Gregorian
civil-calendar algorithm, which is the arithmetic the library performs. -/

structure Date where
  year : Int
  month : Nat
  day : Nat
  deriving DecidableEq, Repr

/-- Day number (days since 1970-01-01) of a civil date. -/
def daysFromCivil (dt : Date) : Int :=
  let y : Int := dt.year - (if dt.month ≤ 2 then 1 else 0)
  let m : Int := dt.month
  let d : Int := dt.day
  let era := Int.ediv y 400
  let yoe := y - era * 400
  let doy := Int.ediv (153 * (m + (if 2 < m then -3 else 9)) + 2) 5 + d - 1
  let doe := yoe * 365 + Int.ediv yoe 4 - Int.ediv yoe 100 + doy
  era * 146097 + doe - 719468

/-- Civil date of a day number (days since 1970-01-01). -/
def civilFromDays (z0 : Int) : Date :=
  let z := z0 + 719468
  let era := Int.ediv z 146097
  let doe := z - era * 146097
  let yoe := Int.ediv (doe - Int.ediv doe 1460 + Int.ediv doe 36524 - Int.ediv doe 146096) 365
  let y := yoe + era * 400
  let doy := doe - (365 * yoe + Int.ediv yoe 4 - Int.ediv yoe 100)
  let mp := Int.ediv (5 * doy + 2) 153
  let d := doy - Int.ediv (153 * mp + 2) 5 + 1
  let m := if mp < 10 then mp + 3 else mp - 9
  { year := y + (if m ≤ 2 then 1 else 0), month := m.toNat, day := d.toNat }

/-- Date plus a number of days: timedelta addition. -/
def addDays (dt : Date) (n : Nat) : Date :=
  civilFromDays (daysFromCivil dt + n)

/-- Left-pads a decimal string with zeros to the given width. -/
def padZero (s : String) (w : Nat) : String :=
  if s.length < w then (List.replicate (w - s.length) '0').asString ++ s else s

/-- strftime with format %Y-%m-%d. -/
def formatDate (dt : Date) : String :=
  padZero (toString dt.year.toNat) 4 ++ "-" ++ padZero (toString dt.month) 2
    ++ "-" ++ padZero (toString dt.day) 2

/-- strftime with format %A: the full weekday name. 1970-01-01 (day
number 0) was a Thursday. -/
def weekdayName (dt : Date) : String :=
  (["Sunday", "Monday", "Tuesday", "Wednesday", "Thursday", "Friday", "Saturday"].getD
    (Int.emod (daysFromCivil dt + 4) 7).toNat "")

/-! ## The memoization cache and the model-call producer

`EnhancedTravelPlannerAI._cache` is a process-wide dict.  We thread it
explicitly through the cached operations as `PlannerState`, together
with a running count of producer invocations (each invocation is one
attempt at the external model call followed by JSON parsing).

The source hashes the key string with MD5 before use.  MD5 is a
deterministic function of the key string, so two calls collide exactly
when their joined key strings are equal; we therefore model the cache
key by the joined string itself (the MD5 pre-image built at line 53 of
travel_bot.py). -/

/-- Cache-key construction `_get_cache_key` (travel_bot.py lines 50-54):
the operation name and the stringified arguments joined with
underscores.  The subsequent MD5 digest is deterministic, so key
equality coincides with equality of this string. -/
def get_cache_key (func_name : String) (args : List String) : String :=
  func_name ++ "_" ++ String.intercalate "_" args

/-- Python repr quoting of a string with single-quote characters, as
produced by str() on a list of strings. -/
def pyQuote (s : String) : String :=
  String.singleton (Char.ofNat 39) ++ s ++ String.singleton (Char.ofNat 39)

/-- Python str() applied to a list of strings, as used for the
activities argument of the packing-list cache key. -/
def pyStrList (l : List String) : String :=
  "[" ++ String.intercalate ", " (l.map pyQuote) ++ "]"

/-- Explicit state for the process-wide cache plus the number of
producer (external model call) invocations made so far. -/
structure PlannerState where
  cache : Obj
  calls : Nat
  deriving Repr

/-- Outcome oracle for successive producer invocations: invocation
number k either returns a parsed JSON value or fails (the model call
raised, or its body failed to parse as JSON). -/
abbrev Producer := Nat → Except String JVal

/-- get_destination_insights (travel_bot.py lines 56-116): consult the
cache under key "insights_<destination>"; on a hit return the stored
value without any model access.  On a miss run the producer; on
success store the parsed result in the cache and return it; on any
failure the except-branch returns the empty dict and writes nothing. -/
def get_destination_insights (producer : Producer) (destination : String)
    (s : PlannerState) : JVal × PlannerState :=
  let cache_key := get_cache_key "insights" [destination]
  match getKey s.cache cache_key with
  | some v => (v, s)
  | none =>
      match producer s.calls with
      | .ok result =>
          (result, { cache := setKey s.cache cache_key result, calls := s.calls + 1 })
      | .error _ => (JVal.obj [], { s with calls := s.calls + 1 })

/-- get_packing_list (travel_bot.py lines 227-268): same caching
discipline as the insights operation, keyed by destination, season and
str(activities) (the day count is not part of the key). -/
def get_packing_list (producer : Producer) (destination : String) (days : Nat)
    (season : String) (activities : List String)
    (s : PlannerState) : JVal × PlannerState :=
  let cache_key := get_cache_key "packing" [destination, season, pyStrList activities]
  match getKey s.cache cache_key with
  | some v => (v, s)
  | none =>
      match producer s.calls with
      | .ok result =>
          (result, { cache := setKey s.cache cache_key result, calls := s.calls + 1 })
      | .error _ => (JVal.obj [], { s with calls := s.calls + 1 })

/-- get_budget_breakdown (travel_bot.py lines 270-327): not cached; a
successful model call returns the parsed result, any failure is caught
and the empty dict returned. -/
def get_budget_breakdown (call : Except String JVal) : JVal :=
  match call with
  | .ok v => v
  | .error _ => JVal.obj []

/-! ## The itinerary date normalizer -/

/-- The date-normalization loop of create_daily_itinerary
(travel_bot.py lines 217-220), with the running zero-based position i:
for the entry at position i, set the "date" key to start_date + i days
formatted YYYY-MM-DD and the "day_of_week" key to the full weekday
name of that date, overwriting whatever the model put there. -/
def normalizeFrom (start : Date) : Nat → List Obj → List Obj
  | _, [] => []
  | i, day :: rest =>
      let dd := addDays start i
      setKey (setKey day "date" (.str (formatDate dd))) "day_of_week"
          (.str (weekdayName dd))
        :: normalizeFrom start (i + 1) rest

/-- The normalization pass over the whole itinerary, starting at
position 0. -/
def normalizeItinerary (itinerary : List Obj) (start : Date) : List Obj :=
  normalizeFrom start 0 itinerary

/-- The extraction result.get("itinerary", result.get("days", [])) at
line 214: defined when the parsed response is a dict (calling .get on
anything else raises, which the surrounding except turns into []). -/
def extractItinerary (result : JVal) : Option JVal :=
  match result with
  | .obj kvs =>
      some ((getKey kvs "itinerary").getD ((getKey kvs "days").getD (JVal.arr [])))
  | _ => none

/-- The elements of the extracted itinerary as dict objects: the
normalization loop subscripts each element, so a non-dict element
raises (caught by the except-branch, which returns []). -/
def asObjs : List JVal → Option (List Obj)
  | [] => some []
  | .obj o :: rest => (asObjs rest).map (o :: ·)
  | _ :: _ => none

/-- create_daily_itinerary (travel_bot.py lines 118-225): on a
successful model call, extract the day list, run the date
normalization over it and return it; any raised error anywhere in the
try-block (model call, JSON parse, extraction or normalization) is
caught and the empty list returned. -/
def create_daily_itinerary (call : Except String JVal) (start_date : Date) : JVal :=
  match call with
  | .error _ => JVal.arr []
  | .ok result =>
      match extractItinerary result with
      | none => JVal.arr []
      | some days =>
          match days with
          | .arr elems =>
              match asObjs elems with
              | some objs =>
                  JVal.arr ((normalizeItinerary objs start_date).map JVal.obj)
              | none => JVal.arr []
          | _ => JVal.arr []

/-! ## The parallel aggregator -/

/-- The four concurrent tasks, identified by the string tags the run_*
wrappers attach in generate_all_parallel. -/
inductive Tag where
  | insights
  | itinerary
  | budget
  | packing
  deriving DecidableEq, Repr

/-- The four tags in submission order (the order the futures are
submitted at travel_bot.py lines 374-379). -/
def allTags : List Tag := [.insights, .itinerary, .budget, .packing]

/-- The results dict of generate_all_parallel: one field per task,
initialized to None, plus the errors list initialized empty. -/
structure AggregateResult where
  insights : Option JVal
  itinerary : Option JVal
  budget : Option JVal
  packing : Option JVal
  errors : List String
  deriving Repr

/-- Field selection of the results dict by task tag. -/
def AggregateResult.field : AggregateResult → Tag → Option JVal
  | s, .insights => s.insights
  | s, .itinerary => s.itinerary
  | s, .budget => s.budget
  | s, .packing => s.packing

/-- The empty default each component returns when its model call
fails: the empty list for the itinerary, the empty dict otherwise. -/
def emptyDefault : Tag → JVal
  | .itinerary => JVal.arr []
  | _ => JVal.obj []

/-- What the run_* wrapper for a task returns as the tagged value,
given each task's single model-call outcome and the trip start date.
Every component catches its own model-call failure internally and
returns its empty default, so the wrapper except-branches (which would
return a dict with an "error" key) are unreachable.  The cached
operations are represented here by their cache-miss path — the value
their one model call produces; their cache interaction is modelled by
get_destination_insights and get_packing_list above, and within one
aggregator run the two cached tasks use disjoint keys. -/
def taskValue (o : Tag → Except String JVal) (start : Date) : Tag → JVal
  | .insights =>
      match o .insights with
      | .ok v => v
      | .error _ => JVal.obj []
  | .itinerary => create_daily_itinerary (o .itinerary) start
  | .budget => get_budget_breakdown (o .budget)
  | .packing =>
      match o .packing with
      | .ok v => v
      | .error _ => JVal.obj []

/-- Storing one completed tagged outcome into the results dict
(results[key] = value at travel_bot.py line 384).  The surrounding
except-branch that appends to results["errors"] can only run when
future.result() re-raises, and the run_* wrappers catch every
exception, so no store ever touches the errors list. -/
def storeResult (s : AggregateResult) (kv : Tag × JVal) : AggregateResult :=
  match kv.1 with
  | .insights => { s with insights := some kv.2 }
  | .itinerary => { s with itinerary := some kv.2 }
  | .budget => { s with budget := some kv.2 }
  | .packing => { s with packing := some kv.2 }

/-- generate_all_parallel (travel_bot.py lines 329-388): the four
tasks run concurrently and their tagged outcomes are collected in
as_completed arrival order — some permutation of the four tags — each
stored into the results dict under its own tag. -/
def generate_all_parallel (o : Tag → Except String JVal) (start : Date)
    (order : List Tag) : AggregateResult :=
  order.foldl (fun s t => storeResult s (t, taskValue o start t))
    { insights := none, itinerary := none, budget := none, packing := none,
      errors := [] }

/-! ## The submit handler in main -/

/-- Models the date gate of the submit handler in main (travel_bot.py
lines 539-545): the planning core is invoked only when end_date is
strictly after start_date, with days = (end_date - start_date).days.
Dates are represented by their linear day numbers (daysFromCivil);
Python date comparison and whole-day subtraction agree with this
representation. -/
def submitDayCount (start_day end_day : Int) : Option Int :=
  if end_day ≤ start_day then none else some (end_day - start_day)

/-- Models the season computation in main (travel_bot.py line 558):
["winter", "spring", "summer", "fall"][(start_date.month % 12) // 3].
Python list indexing raises when out of range, so the index is modelled
with optional indexing. -/
def seasonOf (month : Nat) : Option String :=
  ["winter", "spring", "summer", "fall"][(month % 12) / 3]?

/-- The caching discipline shared verbatim by the insights and packing
operations, abstracted over the already-built cache key: consult the
cache, on a miss run the producer, store only a successful result.
get_destination_insights and get_packing_list are definitionally this
function applied to their respective keys. -/
def cachedFetch (p : Producer) (key : String) (s : PlannerState) : JVal × PlannerState :=
  match getKey s.cache key with
  | some v => (v, s)
  | none =>
      match p s.calls with
      | .ok result => (result, { cache := setKey s.cache key result, calls := s.calls + 1 })
      | .error _ => (JVal.obj [], { s with calls := s.calls + 1 })

/-! ## Dict lookup and assignment lemmas -/

theorem getKey_setKey_self (o : Obj) (k : String) (v : JVal) :
    getKey (setKey o k v) k = some v := by
  induction o with
  | nil => simp [setKey, getKey]
  | cons hd tl ih =>
      obtain ⟨k0, v0⟩ := hd
      by_cases h : k0 = k
      · simp [setKey, h, getKey]
      · simp [setKey, h, getKey, ih]

theorem getKey_setKey_ne (o : Obj) (k k' : String) (v : JVal) (h : k ≠ k') :
    getKey (setKey o k v) k' = getKey o k' := by
  induction o with
  | nil => simp [setKey, getKey, h]
  | cons hd tl ih =>
      obtain ⟨k0, v0⟩ := hd
      by_cases h0 : k0 = k
      · subst h0
        simp [setKey, getKey, h]
      · simp [setKey, h0, getKey, ih]

theorem get_destination_insights_eq (p : Producer) (dest : String) (s : PlannerState) :
    get_destination_insights p dest s
      = cachedFetch p (get_cache_key "insights" [dest]) s := rfl

theorem get_packing_list_eq (p : Producer) (dest : String) (d : Nat)
    (se : String) (acts : List String) (s : PlannerState) :
    get_packing_list p dest d se acts s
      = cachedFetch p (get_cache_key "packing" [dest, se, pyStrList acts]) s := rfl

/-! ## Properties of the date normalizer -/

theorem normalizeFrom_length (start : Date) (n : Nat) (l : List Obj) :
    (normalizeFrom start n l).length = l.length := by
  induction l generalizing n with
  | nil => rfl
  | cons d rest ih => simp [normalizeFrom, ih]

theorem normalizeFrom_get (start : Date) (l : List Obj) (n i : Nat)
    (h2 : i < (normalizeFrom start n l).length) :
    (normalizeFrom start n l).get ⟨i, h2⟩ =
      setKey
        (setKey (l.get ⟨i, by rw [← normalizeFrom_length start n l]; exact h2⟩)
          "date" (JVal.str (formatDate (addDays start (n + i)))))
        "day_of_week" (JVal.str (weekdayName (addDays start (n + i)))) := by
  induction l generalizing n i with
  | nil => simp [normalizeFrom] at h2
  | cons d rest ih =>
      cases i with
      | zero => rfl
      | succ j =>
          have hj : j < (normalizeFrom start (n + 1) rest).length := by
            have h3 := h2
            simp only [normalizeFrom, List.length_cons] at h3
            omega
          have harith : n + 1 + j = n + (j + 1) := by omega
          have hih := ih (n + 1) j hj
          rw [harith] at hih
          exact hih

/-- Claim C2: for every itinerary sequence and every start date, the
normalization pass sets, for the entry at zero-based position i, the
date field to start_date + i days formatted YYYY-MM-DD and the
day_of_week field to the full weekday name of that date, overwriting
any model-supplied date or day value: the resulting fields depend only
on the position i and the start date, never on the entry contents. -/
theorem normalizer_positional (its : List Obj) (start : Date) (i : Nat)
    (h : i < (normalizeItinerary its start).length) :
    (normalizeItinerary its start).length = its.length ∧
    getKey ((normalizeItinerary its start).get ⟨i, h⟩) "date"
      = some (JVal.str (formatDate (addDays start i))) ∧
    getKey ((normalizeItinerary its start).get ⟨i, h⟩) "day_of_week"
      = some (JVal.str (weekdayName (addDays start i))) := by
  refine ⟨normalizeFrom_length start 0 its, ?_, ?_⟩
  · unfold normalizeItinerary
    rw [normalizeFrom_get start its 0 i h]
    rw [getKey_setKey_ne _ _ _ _ (by decide)]
    rw [getKey_setKey_self]
    simp
  · unfold normalizeItinerary
    rw [normalizeFrom_get start its 0 i h]
    rw [getKey_setKey_self]
    simp

/-- Witness for claim C2: a two-entry itinerary whose first entry
carries a model-supplied date of 1999-01-01 and day number 7; after
normalization the first entry reads 2024-06-01, a Saturday. -/
theorem normalizer_positional_witness :
    (normalizeItinerary
        [[("date", JVal.str "1999-01-01"), ("day", JVal.num 7)], []]
        ⟨2024, 6, 1⟩).length = 2 ∧
    getKey ((normalizeItinerary
        [[("date", JVal.str "1999-01-01"), ("day", JVal.num 7)], []]
        ⟨2024, 6, 1⟩).get ⟨0, by decide⟩) "date"
      = some (JVal.str "2024-06-01") ∧
    getKey ((normalizeItinerary
        [[("date", JVal.str "1999-01-01"), ("day", JVal.num 7)], []]
        ⟨2024, 6, 1⟩).get ⟨0, by decide⟩) "day_of_week"
      = some (JVal.str "Saturday") :=
  normalizer_positional
    [[("date", JVal.str "1999-01-01"), ("day", JVal.num 7)], []]
    ⟨2024, 6, 1⟩ 0 (by decide)

/-! ## The submit-handler date gate and the season table -/

/-- Claim C8: whenever the submit handler invokes the planning core,
the day count it passes equals the whole-day difference of the two
dates, and is at least 1 because the gate rejects end_date less than
or equal to start_date. -/
theorem day_count_positive (s e d : Int) (h : submitDayCount s e = some d) :
    d = e - s ∧ 1 ≤ d := by
  unfold submitDayCount at h
  split at h
  · exact absurd h (by simp)
  · next hgt =>
      obtain rfl : e - s = d := by simpa using h
      omega

/-- Witness for claim C8: start day 0, end day 3 passes the gate with
a day count of 3. -/
theorem day_count_positive_witness : (3 : Int) = 3 - 0 ∧ (1 : Int) ≤ 3 :=
  day_count_positive 0 3 3 (by decide)

/-- Claim C10: for every month 1..12 the season index (m % 12) / 3
lies in 0..3, so the lookup is in range and yields winter for
December-February, spring for March-May, summer for June-August and
fall for September-November. -/
theorem season_total_mapping (m : Nat) (h1 : 1 ≤ m) (h2 : m ≤ 12) :
    (m % 12) / 3 < 4 ∧
    seasonOf m = some (if m = 12 ∨ m ≤ 2 then "winter"
      else if m ≤ 5 then "spring" else if m ≤ 8 then "summer" else "fall") := by
  interval_cases m <;> exact ⟨by decide, rfl⟩

/-- Witness for claim C10: July is summer, with index 2. -/
theorem season_total_mapping_witness :
    (7 % 12) / 3 < 4 ∧ seasonOf 7 = some "summer" :=
  season_total_mapping 7 (by decide) (by decide)

/-! ## Cache-key collisions -/

/-- Claim C9: the cache-key construction joins the rendered arguments
with an underscore separator before hashing, so it is not injective:
the two distinct argument lists ["a_b", "c"] and ["a", "b_c"] under
one operation name produce the same key, and consequently a
packing-list call for destination "x_y" in season "z" stores an entry
that a later call for destination "x" in season "y_z" reads back
without invoking its own producer. -/
theorem cache_key_collision :
    get_cache_key "insights" ["a_b", "c"] = get_cache_key "insights" ["a", "b_c"] ∧
    (["a_b", "c"] == ["a", "b_c"]) = false ∧
    (get_packing_list (fun _ => Except.error "down") "x" 3 "y_z" []
        (get_packing_list (fun _ => Except.ok (JVal.obj [("clothing", JVal.arr [])]))
          "x_y" 3 "z" [] ⟨[], 0⟩).2).1
      = JVal.obj [("clothing", JVal.arr [])] ∧
    (get_packing_list (fun _ => Except.error "down") "x" 3 "y_z" []
        (get_packing_list (fun _ => Except.ok (JVal.obj [("clothing", JVal.arr [])]))
          "x_y" 3 "z" [] ⟨[], 0⟩).2).2.calls = 1 := by
  refine ⟨rfl, by decide, ?_, ?_⟩ <;> rfl

/-! ## Cache semantics: memoization and failure handling -/

theorem cachedFetch_second (p : Producer) (key : String) (s : PlannerState)
    (v : JVal) (h : p s.calls = Except.ok v) :
    (cachedFetch p key (cachedFetch p key s).2).1 = (cachedFetch p key s).1 ∧
    (cachedFetch p key (cachedFetch p key s).2).2.calls
      = (cachedFetch p key s).2.calls ∧
    (cachedFetch p key s).2.calls ≤ s.calls + 1 := by
  cases hk : getKey s.cache key with
  | some w =>
      have e1 : cachedFetch p key s = (w, s) := by simp [cachedFetch, hk]
      rw [e1]
      exact ⟨by simp [e1], by simp [e1], by exact Nat.le_succ _⟩
  | none =>
      have e1 : cachedFetch p key s
          = (v, ⟨setKey s.cache key v, s.calls + 1⟩) := by
        simp [cachedFetch, hk, h]
      have e2 : cachedFetch p key (⟨setKey s.cache key v, s.calls + 1⟩ : PlannerState)
          = (v, ⟨setKey s.cache key v, s.calls + 1⟩) := by
        simp [cachedFetch, getKey_setKey_self]
      rw [e1]
      exact ⟨by rw [e2], by rw [e2], by exact Nat.le_refl _⟩

theorem cachedFetch_error (p : Producer) (key : String) (s : PlannerState)
    (e : String) (hmiss : getKey s.cache key = none)
    (herr : p s.calls = Except.error e) :
    (cachedFetch p key s).1 = JVal.obj [] ∧
    (cachedFetch p key s).2.cache = s.cache ∧
    (cachedFetch p key s).2.calls = s.calls + 1 ∧
    (cachedFetch p key (cachedFetch p key s).2).2.calls = s.calls + 2 := by
  have e1 : cachedFetch p key s
      = (JVal.obj [], { s with calls := s.calls + 1 }) := by
    simp [cachedFetch, hmiss, herr]
  refine ⟨by rw [e1], by rw [e1], by rw [e1], ?_⟩
  rw [e1]
  cases h2 : p (s.calls + 1) <;> simp [cachedFetch, hmiss, h2]

/-- Claim C3: for a cached operation (destination insights or packing
list), two sequential calls with identical arguments where the first
call's producer would succeed invoke the producer at most once in
total: the second call returns exactly the first call's value and
performs no model access (its invocation count does not move). -/
theorem cached_ops_single_invocation (p : Producer) (dest : String) (d : Nat)
    (se : String) (acts : List String) (s : PlannerState) (v : JVal)
    (h : p s.calls = Except.ok v) :
    (get_destination_insights p dest (get_destination_insights p dest s).2).1
      = (get_destination_insights p dest s).1 ∧
    (get_destination_insights p dest (get_destination_insights p dest s).2).2.calls
      = (get_destination_insights p dest s).2.calls ∧
    (get_destination_insights p dest s).2.calls ≤ s.calls + 1 ∧
    (get_packing_list p dest d se acts (get_packing_list p dest d se acts s).2).1
      = (get_packing_list p dest d se acts s).1 ∧
    (get_packing_list p dest d se acts (get_packing_list p dest d se acts s).2).2.calls
      = (get_packing_list p dest d se acts s).2.calls ∧
    (get_packing_list p dest d se acts s).2.calls ≤ s.calls + 1 := by
  have hi := cachedFetch_second p (get_cache_key "insights" [dest]) s v h
  have hp := cachedFetch_second p
    (get_cache_key "packing" [dest, se, pyStrList acts]) s v h
  exact ⟨hi.1, hi.2.1, hi.2.2, hp.1, hp.2.1, hp.2.2⟩

/-- Witness for claim C3: two insights calls for Rome and two packing
calls for Rome in summer, from an empty cache with an always-succeeding
producer, invoke the producer once per operation and return the cached
value on the second call. -/
theorem cached_ops_single_invocation_witness :
    (get_destination_insights (fun _ => Except.ok (JVal.obj [])) "Rome"
        (get_destination_insights (fun _ => Except.ok (JVal.obj [])) "Rome"
          ⟨[], 0⟩).2).1
      = (get_destination_insights (fun _ => Except.ok (JVal.obj [])) "Rome"
          ⟨[], 0⟩).1 ∧
    (get_destination_insights (fun _ => Except.ok (JVal.obj [])) "Rome"
        (get_destination_insights (fun _ => Except.ok (JVal.obj [])) "Rome"
          ⟨[], 0⟩).2).2.calls
      = (get_destination_insights (fun _ => Except.ok (JVal.obj [])) "Rome"
          ⟨[], 0⟩).2.calls ∧
    (get_destination_insights (fun _ => Except.ok (JVal.obj [])) "Rome"
        ⟨[], 0⟩).2.calls ≤ 0 + 1 ∧
    (get_packing_list (fun _ => Except.ok (JVal.obj [])) "Rome" 3 "summer"
        ["Culture"]
        (get_packing_list (fun _ => Except.ok (JVal.obj [])) "Rome" 3 "summer"
          ["Culture"] ⟨[], 0⟩).2).1
      = (get_packing_list (fun _ => Except.ok (JVal.obj [])) "Rome" 3 "summer"
          ["Culture"] ⟨[], 0⟩).1 ∧
    (get_packing_list (fun _ => Except.ok (JVal.obj [])) "Rome" 3 "summer"
        ["Culture"]
        (get_packing_list (fun _ => Except.ok (JVal.obj [])) "Rome" 3 "summer"
          ["Culture"] ⟨[], 0⟩).2).2.calls
      = (get_packing_list (fun _ => Except.ok (JVal.obj [])) "Rome" 3 "summer"
          ["Culture"] ⟨[], 0⟩).2.calls ∧
    (get_packing_list (fun _ => Except.ok (JVal.obj [])) "Rome" 3 "summer"
        ["Culture"] ⟨[], 0⟩).2.calls ≤ 0 + 1 :=
  cached_ops_single_invocation (fun _ => Except.ok (JVal.obj [])) "Rome" 3
    "summer" ["Culture"] ⟨[], 0⟩ (JVal.obj []) rfl

/-- Claim C4: when the producer of a cached operation fails (the model
call raises or its response does not parse as JSON), the operation
returns the empty dict, writes nothing into the cache, and a
subsequent identical call invokes the producer again. -/
theorem failed_producer_not_cached (p : Producer) (dest : String) (d : Nat)
    (se : String) (acts : List String) (s : PlannerState) (e : String)
    (hmiss_i : getKey s.cache (get_cache_key "insights" [dest]) = none)
    (hmiss_p : getKey s.cache
      (get_cache_key "packing" [dest, se, pyStrList acts]) = none)
    (herr : p s.calls = Except.error e) :
    (get_destination_insights p dest s).1 = JVal.obj [] ∧
    (get_destination_insights p dest s).2.cache = s.cache ∧
    (get_destination_insights p dest s).2.calls = s.calls + 1 ∧
    (get_destination_insights p dest
      (get_destination_insights p dest s).2).2.calls = s.calls + 2 ∧
    (get_packing_list p dest d se acts s).1 = JVal.obj [] ∧
    (get_packing_list p dest d se acts s).2.cache = s.cache ∧
    (get_packing_list p dest d se acts s).2.calls = s.calls + 1 ∧
    (get_packing_list p dest d se acts
      (get_packing_list p dest d se acts s).2).2.calls = s.calls + 2 := by
  have hi := cachedFetch_error p (get_cache_key "insights" [dest]) s e hmiss_i herr
  have hp := cachedFetch_error p
    (get_cache_key "packing" [dest, se, pyStrList acts]) s e hmiss_p herr
  exact ⟨hi.1, hi.2.1, hi.2.2.1, hi.2.2.2, hp.1, hp.2.1, hp.2.2.1, hp.2.2.2⟩

/-- Witness for claim C4: a failing producer on an empty cache leaves
the cache empty and is re-invoked by the second identical call, for
both the insights and the packing operation. -/
theorem failed_producer_not_cached_witness :
    (get_destination_insights (fun _ => Except.error "down") "Rome" ⟨[], 0⟩).1
      = JVal.obj [] ∧
    (get_destination_insights (fun _ => Except.error "down") "Rome"
        ⟨[], 0⟩).2.cache = ([] : Obj) ∧
    (get_destination_insights (fun _ => Except.error "down") "Rome"
        ⟨[], 0⟩).2.calls = 0 + 1 ∧
    (get_destination_insights (fun _ => Except.error "down") "Rome"
        (get_destination_insights (fun _ => Except.error "down") "Rome"
          ⟨[], 0⟩).2).2.calls = 0 + 2 ∧
    (get_packing_list (fun _ => Except.error "down") "Rome" 3 "summer"
        ["Culture"] ⟨[], 0⟩).1 = JVal.obj [] ∧
    (get_packing_list (fun _ => Except.error "down") "Rome" 3 "summer"
        ["Culture"] ⟨[], 0⟩).2.cache = ([] : Obj) ∧
    (get_packing_list (fun _ => Except.error "down") "Rome" 3 "summer"
        ["Culture"] ⟨[], 0⟩).2.calls = 0 + 1 ∧
    (get_packing_list (fun _ => Except.error "down") "Rome" 3 "summer"
        ["Culture"]
        (get_packing_list (fun _ => Except.error "down") "Rome" 3 "summer"
          ["Culture"] ⟨[], 0⟩).2).2.calls = 0 + 2 :=
  failed_producer_not_cached (fun _ => Except.error "down") "Rome" 3 "summer"
    ["Culture"] ⟨[], 0⟩ "down" rfl rfl rfl

/-! ## Error shape of the standalone component operations -/

/-- Counterexample to claim C7 as stated: a direct insights call whose
model call fails returns the plain empty dict — an object with no
entries at all, in particular no "error" key — not an object of the
form with an "error" key holding the message. -/
theorem component_error_shape_counterexample :
    (get_destination_insights (fun _ => Except.error "model down") "Paris"
        ⟨[], 0⟩).1 = JVal.obj [] ∧
    create_daily_itinerary (Except.error "model down") ⟨2024, 6, 1⟩
      = JVal.arr [] := ⟨rfl, rfl⟩

/-- Claim C7 amended: every component operation invoked directly whose
model call fails returns its empty default — the empty dict for
insights, packing and budget, the empty list for the itinerary — with
no in-band error marker, because each component catches its own
exception and returns the empty value (the in-band error-shaped object
appears only in the unreachable except-branches of the aggregator's
run_* wrappers). -/
theorem component_error_returns_empty_default (e dest se : String) (d : Nat)
    (acts : List String) (start : Date) :
    (get_destination_insights (fun _ => Except.error e) dest ⟨[], 0⟩).1
      = JVal.obj [] ∧
    (get_packing_list (fun _ => Except.error e) dest d se acts ⟨[], 0⟩).1
      = JVal.obj [] ∧
    get_budget_breakdown (Except.error e) = JVal.obj [] ∧
    create_daily_itinerary (Except.error e) start = JVal.arr [] :=
  ⟨rfl, rfl, rfl, rfl⟩

/-! ## The aggregator: isolation, attribution and order invariance -/

theorem field_storeResult (s : AggregateResult) (a : Tag) (v : JVal) (t : Tag) :
    (storeResult s (a, v)).field t = if t = a then some v else s.field t := by
  cases a <;> cases t <;> simp [storeResult, AggregateResult.field]

theorem errors_storeResult (s : AggregateResult) (kv : Tag × JVal) :
    (storeResult s kv).errors = s.errors := by
  obtain ⟨a, v⟩ := kv
  cases a <;> rfl

theorem foldl_store_field (o : Tag → Except String JVal) (start : Date)
    (order : List Tag) (s : AggregateResult) (t : Tag) :
    ((order.foldl (fun s u => storeResult s (u, taskValue o start u)) s).field t)
      = if t ∈ order then some (taskValue o start t) else s.field t := by
  induction order generalizing s with
  | nil => simp
  | cons a rest ih =>
      simp only [List.foldl_cons]
      rw [ih]
      by_cases hmem : t ∈ rest
      · simp [hmem]
      · by_cases hta : t = a
        · subst hta
          simp [hmem, field_storeResult]
        · simp [hmem, hta, field_storeResult]

theorem foldl_store_errors (o : Tag → Except String JVal) (start : Date)
    (order : List Tag) (s : AggregateResult) :
    (order.foldl (fun s u => storeResult s (u, taskValue o start u)) s).errors
      = s.errors := by
  induction order generalizing s with
  | nil => rfl
  | cons a rest ih =>
      simp only [List.foldl_cons]
      rw [ih, errors_storeResult]

theorem AggregateResult.eq_of_parts {a b : AggregateResult}
    (h : ∀ t, a.field t = b.field t) (he : a.errors = b.errors) : a = b := by
  obtain ⟨i1, t1, b1, p1, e1⟩ := a
  obtain ⟨i2, t2, b2, p2, e2⟩ := b
  have h1 := h .insights
  have h2 := h .itinerary
  have h3 := h .budget
  have h4 := h .packing
  simp only [AggregateResult.field] at h1 h2 h3 h4
  simp_all

theorem generate_all_parallel_eq (o : Tag → Except String JVal) (start : Date)
    (order : List Tag) (h : order.Perm allTags) :
    generate_all_parallel o start order =
      { insights := some (taskValue o start .insights),
        itinerary := some (taskValue o start .itinerary),
        budget := some (taskValue o start .budget),
        packing := some (taskValue o start .packing),
        errors := [] } := by
  have hmem : ∀ t : Tag, t ∈ order := by
    intro t
    exact h.mem_iff.2 (by cases t <;> simp [allTags])
  apply AggregateResult.eq_of_parts
  · intro t
    unfold generate_all_parallel
    rw [foldl_store_field, if_pos (hmem t)]
    cases t <;> rfl
  · unfold generate_all_parallel
    rw [foldl_store_errors]

theorem taskValue_error (o : Tag → Except String JVal) (start : Date) (t : Tag)
    (e : String) (h : o t = Except.error e) :
    taskValue o start t = emptyDefault t := by
  cases t <;>
    simp [taskValue, h, emptyDefault, create_daily_itinerary, get_budget_breakdown]

/-- Claim C5: for every combination of per-task model-call outcomes
and every completion order of the four tasks, generate_all_parallel
returns an aggregate result — there is no exception path — in which
every field holds exactly the value of its own task, so a failure in
one task neither aborts the aggregate nor alters any sibling field,
and the errors list stays empty. -/
theorem aggregator_isolation (o : Tag → Except String JVal) (start : Date)
    (order : List Tag) (h : order.Perm allTags) :
    generate_all_parallel o start order =
      { insights := some (taskValue o start .insights),
        itinerary := some (taskValue o start .itinerary),
        budget := some (taskValue o start .budget),
        packing := some (taskValue o start .packing),
        errors := [] } :=
  generate_all_parallel_eq o start order h

/-- Witness for claim C5: all four model calls fail and the tasks
complete in reverse submission order; the aggregator still returns,
with every field at its empty default and no error recorded. -/
theorem aggregator_isolation_witness :
    generate_all_parallel (fun _ => Except.error "x") ⟨2024, 1, 1⟩
        [Tag.packing, Tag.budget, Tag.itinerary, Tag.insights] =
      { insights := some (JVal.obj []), itinerary := some (JVal.arr []),
        budget := some (JVal.obj []), packing := some (JVal.obj []),
        errors := [] } :=
  aggregator_isolation (fun _ => Except.error "x") ⟨2024, 1, 1⟩
    [Tag.packing, Tag.budget, Tag.itinerary, Tag.insights]
    (List.reverse_perm allTags)

/-- Claim C6: the aggregate result is invariant under permutation of
the completion order: any two arrival orders of the four tagged
outcomes produce the same AggregateResult, because each outcome is
stored under its own tag, not by position. -/
theorem aggregator_order_invariant (o : Tag → Except String JVal) (start : Date)
    (ord1 ord2 : List Tag) (h1 : ord1.Perm allTags) (h2 : ord2.Perm allTags) :
    generate_all_parallel o start ord1 = generate_all_parallel o start ord2 :=
  (generate_all_parallel_eq o start ord1 h1).trans
    (generate_all_parallel_eq o start ord2 h2).symm

/-- Witness for claim C6: with mixed per-task outcomes, submission
order and reverse order give the same aggregate. -/
theorem aggregator_order_invariant_witness :
    generate_all_parallel
        (fun t => match t with
          | Tag.insights => Except.ok (JVal.str "i")
          | Tag.itinerary => Except.error "x"
          | Tag.budget => Except.ok (JVal.str "b")
          | Tag.packing => Except.ok (JVal.str "p"))
        ⟨2024, 1, 1⟩ allTags =
      generate_all_parallel
        (fun t => match t with
          | Tag.insights => Except.ok (JVal.str "i")
          | Tag.itinerary => Except.error "x"
          | Tag.budget => Except.ok (JVal.str "b")
          | Tag.packing => Except.ok (JVal.str "p"))
        ⟨2024, 1, 1⟩ [Tag.packing, Tag.budget, Tag.itinerary, Tag.insights] :=
  aggregator_order_invariant
    (fun t => match t with
      | Tag.insights => Except.ok (JVal.str "i")
      | Tag.itinerary => Except.error "x"
      | Tag.budget => Except.ok (JVal.str "b")
      | Tag.packing => Except.ok (JVal.str "p"))
    ⟨2024, 1, 1⟩ allTags [Tag.packing, Tag.budget, Tag.itinerary, Tag.insights]
    (List.Perm.refl allTags) (List.reverse_perm allTags)

/-- Counterexample to claim C1 as stated: the budget model call fails
while the other three succeed, yet the errors list of the aggregate is
empty — it does not contain any message naming the failed task — while
the budget field sits at the empty dict and the three sibling fields
hold their successful values. -/
theorem aggregator_errors_empty_counterexample :
    (generate_all_parallel
        (fun t => match t with
          | Tag.budget => Except.error "model down"
          | Tag.itinerary => Except.ok (JVal.obj [("itinerary", JVal.arr
              [JVal.obj [("day", JVal.num 1), ("title", JVal.str "Arrival")]])])
          | _ => Except.ok (JVal.obj [("description", JVal.str "nice")]))
        ⟨2024, 6, 1⟩ allTags).errors = [] ∧
    (generate_all_parallel
        (fun t => match t with
          | Tag.budget => Except.error "model down"
          | Tag.itinerary => Except.ok (JVal.obj [("itinerary", JVal.arr
              [JVal.obj [("day", JVal.num 1), ("title", JVal.str "Arrival")]])])
          | _ => Except.ok (JVal.obj [("description", JVal.str "nice")]))
        ⟨2024, 6, 1⟩ allTags).budget = some (JVal.obj []) ∧
    (generate_all_parallel
        (fun t => match t with
          | Tag.budget => Except.error "model down"
          | Tag.itinerary => Except.ok (JVal.obj [("itinerary", JVal.arr
              [JVal.obj [("day", JVal.num 1), ("title", JVal.str "Arrival")]])])
          | _ => Except.ok (JVal.obj [("description", JVal.str "nice")]))
        ⟨2024, 6, 1⟩ allTags).insights
      = some (JVal.obj [("description", JVal.str "nice")]) ∧
    (generate_all_parallel
        (fun t => match t with
          | Tag.budget => Except.error "model down"
          | Tag.itinerary => Except.ok (JVal.obj [("itinerary", JVal.arr
              [JVal.obj [("day", JVal.num 1), ("title", JVal.str "Arrival")]])])
          | _ => Except.ok (JVal.obj [("description", JVal.str "nice")]))
        ⟨2024, 6, 1⟩ allTags).itinerary
      = some (JVal.arr [JVal.obj [("day", JVal.num 1),
          ("title", JVal.str "Arrival"), ("date", JVal.str "2024-06-01"),
          ("day_of_week", JVal.str "Saturday")]]) ∧
    (generate_all_parallel
        (fun t => match t with
          | Tag.budget => Except.error "model down"
          | Tag.itinerary => Except.ok (JVal.obj [("itinerary", JVal.arr
              [JVal.obj [("day", JVal.num 1), ("title", JVal.str "Arrival")]])])
          | _ => Except.ok (JVal.obj [("description", JVal.str "nice")]))
        ⟨2024, 6, 1⟩ allTags).packing
      = some (JVal.obj [("description", JVal.str "nice")]) :=
  ⟨rfl, rfl, rfl, rfl, rfl⟩

/-- Claim C1 amended: when exactly one task's model call fails and the
other three succeed, the failed task's field of the aggregate sits at
its empty default and each sibling field holds its own task's value;
however the errors list stays empty — no message naming the failed
task is ever appended, because every component catches its own
exception and returns its empty default before the aggregator's
error-collection branch could observe a failure. -/
theorem single_failure_aggregate (o : Tag → Except String JVal) (start : Date)
    (order : List Tag) (f : Tag) (e : String)
    (hperm : order.Perm allTags)
    (hfail : o f = Except.error e)
    (hok : ∀ t, t ≠ f → ∃ v, o t = Except.ok v) :
    (generate_all_parallel o start order).field f = some (emptyDefault f) ∧
    (∀ t, t ≠ f →
      (generate_all_parallel o start order).field t
        = some (taskValue o start t)) ∧
    (generate_all_parallel o start order).errors = [] := by
  have hchar := generate_all_parallel_eq o start order hperm
  have hfield : ∀ t : Tag,
      ({ insights := some (taskValue o start .insights),
         itinerary := some (taskValue o start .itinerary),
         budget := some (taskValue o start .budget),
         packing := some (taskValue o start .packing),
         errors := [] } : AggregateResult).field t
        = some (taskValue o start t) := by
    intro t
    cases t <;> rfl
  refine ⟨?_, ?_, ?_⟩
  · rw [hchar, hfield f, taskValue_error o start f e hfail]
  · intro t ht
    rw [hchar, hfield t]
  · rw [hchar]

/-- Witness for claim C1 amended: the budget task fails, the others
succeed; the budget field is the empty dict and the errors list is
empty. -/
theorem single_failure_aggregate_witness :
    (generate_all_parallel
        (fun t => match t with
          | Tag.budget => Except.error "model down"
          | _ => Except.ok (JVal.obj [("description", JVal.str "nice")]))
        ⟨2024, 6, 1⟩ allTags).field Tag.budget
      = some (emptyDefault Tag.budget) ∧
    (generate_all_parallel
        (fun t => match t with
          | Tag.budget => Except.error "model down"
          | _ => Except.ok (JVal.obj [("description", JVal.str "nice")]))
        ⟨2024, 6, 1⟩ allTags).errors = [] := by
  have h := single_failure_aggregate
    (fun t => match t with
      | Tag.budget => Except.error "model down"
      | _ => Except.ok (JVal.obj [("description", JVal.str "nice")]))
    ⟨2024, 6, 1⟩ allTags Tag.budget "model down" (List.Perm.refl allTags) rfl
    (by
      intro t ht
      cases t
      · exact ⟨JVal.obj [("description", JVal.str "nice")], rfl⟩
      · exact ⟨JVal.obj [("description", JVal.str "nice")], rfl⟩
      · exact absurd rfl ht
      · exact ⟨JVal.obj [("description", JVal.str "nice")], rfl⟩)
  exact ⟨h.1, h.2.2⟩

end TravelBot
